import Mathlib

/-!
Shallow embedding of the hotel-booking core flow:
  - storage layer: tables and constraints from
    supabase/migrations/20240101000000_initial_schema.sql
    (bookings check constraints, the check_booking_overlap trigger,
    unique payment per booking);
  - supabase/functions/bookings/index.ts : handleCreateBooking;
  - supabase/functions/paymob-initiate/index.ts : the serve handler
    (initiatePayment);
  - supabase/functions/paymob-webhook/index.ts : the serve handler
    (handleCallback).

Modelling conventions:
  - dates are whole days (Int); the SQL column type is date, and the
    TypeScript nights computation divides a millisecond difference by a
    full day, so day granularity is exact for stored values;
  - SQL null / JS falsy text fields are modelled as the empty string,
    matching the JS truthiness tests the source performs on them
    (for example existingPayment.provider_payment_key);
  - monetary amounts are integers (the numeric columns hold whole
    currency units in every code path the claims touch);
  - uuids are Nat identifiers;
  - the HMAC-SHA512 primitive is an abstract parameter
    (hmacFn : secret -> message -> digest); the field concatenation fed
    to it is embedded concretely;
  - outbound PayMob HTTP calls are abstracted by a PayMobProvider record
    holding the values the provider would answer with; the list of call
    names made is returned so that theorems can state that no provider
    order or session is created on the idempotent path.
-/

inductive BookingStatus
  | pending
  | confirmed
  | cancelled
deriving DecidableEq, Repr

inductive PaymentStatus
  | initiated
  | paid
  | failed
deriving DecidableEq, Repr

structure Room where
  id : Nat
  hotel_id : Nat
  capacity : Nat
  price_per_night : Int
  currency : String
deriving DecidableEq, Repr

structure Booking where
  id : Nat
  user_id : Nat
  room_id : Nat
  check_in : Int
  check_out : Int
  nights : Nat
  total_amount : Int
  currency : String
  status : BookingStatus
deriving DecidableEq, Repr

/-- PayMob transaction callback payload: the fields the webhook handler
destructures from the request body (paymob-webhook/index.ts lines 29 to 94).
All values feed the HMAC concatenation in their JS string form; success is
kept as Bool since the handler branches on it. -/
structure WebhookEvent where
  amount_cents : String
  created_at : String
  currency : String
  error_occured : String
  has_parent_transaction : String
  txn_id : String
  integration_id : String
  is_3d_secure : String
  is_auth : String
  is_capture : String
  is_refunded : String
  is_standalone_payment : String
  is_voided : String
  order_id : String
  owner : String
  pending : String
  source_pan : String
  source_sub_type : String
  source_type : String
  success : Bool
  merchant_order_id : Nat
deriving DecidableEq, Repr

structure Payment where
  id : Nat
  booking_id : Nat
  provider : String
  provider_order_id : String
  provider_payment_key : String
  amount : Int
  currency : String
  status : PaymentStatus
  raw : Option WebhookEvent
deriving DecidableEq, Repr

structure Notification where
  user_id : Option Nat
  kind : String
  title : String
  body : String
  read : Bool
deriving DecidableEq, Repr

structure DB where
  rooms : List Room
  bookings : List Booking
  payments : List Payment
  notifications : List Notification
deriving DecidableEq, Repr

deriving instance DecidableEq for Except

/-- The trigger function check_booking_overlap of the initial schema
(migration lines 206 to 224): when the written row has status confirmed,
scan the table for another confirmed booking on the same room whose
half-open date range overlaps the written row, excluding the written row
by id; raise (return false) when one exists. -/
def check_booking_overlap (table : List Booking) (NEW : Booking) : Bool :=
  if NEW.status = BookingStatus.confirmed then
    ! table.any (fun b =>
        b.room_id == NEW.room_id && b.id != NEW.id &&
        b.status == BookingStatus.confirmed &&
        decide (b.check_in < NEW.check_out) && decide (b.check_out > NEW.check_in))
  else true

/-- Check constraints of the bookings table (migration lines 41 to 53):
nights > 0, total_amount >= 0, and check_dates (check_out > check_in). -/
def bookingRowChecks (NEW : Booking) : Bool :=
  decide (NEW.nights > 0) && decide (NEW.total_amount ≥ 0) &&
    decide (NEW.check_out > NEW.check_in)

/-- A row write on the bookings table: an insert of a fresh row, or an
update supplying the NEW row image for the row sharing its id (an update
that matches no row is a no-op, as in SQL). -/
inductive BookingWrite
  | insertRow (NEW : Booking)
  | updateRow (NEW : Booking)
deriving DecidableEq, Repr

/-- Apply a bookings-table write with the storage semantics of the schema:
the BEFORE trigger trg_check_overlap fires first on the written row, then
the check constraints, then (for inserts) the primary-key uniqueness. A
raise aborts the statement, leaving the table unchanged and surfacing the
error to the caller. -/
def applyBookingWrite (db : DB) (w : BookingWrite) : Except String DB :=
  match w with
  | BookingWrite.insertRow NEW =>
    if !(check_booking_overlap db.bookings NEW) then
      Except.error ("Room is already booked for these dates.")
    else if !(bookingRowChecks NEW) then
      Except.error ("new row violates a check constraint on bookings")
    else if db.bookings.any (fun b => b.id == NEW.id) then
      Except.error ("duplicate key value violates unique constraint bookings_pkey")
    else
      Except.ok { db with bookings := db.bookings ++ [NEW] }
  | BookingWrite.updateRow NEW =>
    if db.bookings.any (fun b => b.id == NEW.id) then
      if !(check_booking_overlap db.bookings NEW) then
        Except.error ("Room is already booked for these dates.")
      else if !(bookingRowChecks NEW) then
        Except.error ("new row violates a check constraint on bookings")
      else
        let bs := db.bookings.map (fun b => if b.id == NEW.id then NEW else b)
        Except.ok { db with bookings := bs }
    else
      Except.ok db

/-- The SQL statement update bookings set status = st where id = bid, with
the trigger applied (used by the webhook handler). -/
def sqlUpdateBookingStatus (db : DB) (bid : Nat) (st : BookingStatus) :
    Except String DB :=
  match db.bookings.find? (fun b => b.id == bid) with
  | none => Except.ok db
  | some old => applyBookingWrite db (BookingWrite.updateRow { old with status := st })

/-- The invariant of claim C1: no two distinct confirmed bookings on the
same room have overlapping half-open date ranges. -/
def noConfirmedOverlap (bs : List Booking) : Prop :=
  ∀ a ∈ bs, ∀ b ∈ bs, a.id ≠ b.id →
    a.status = BookingStatus.confirmed → b.status = BookingStatus.confirmed →
    a.room_id = b.room_id →
    ¬(a.check_in < b.check_out ∧ a.check_out > b.check_in)

instance : DecidablePred noConfirmedOverlap := by
  intro bs
  unfold noConfirmedOverlap
  infer_instance

/-! ## handleCreateBooking (supabase/functions/bookings/index.ts, lines 120 to 167) -/

/-- Request body of POST /bookings; none models a missing (JS falsy) field. -/
structure BookingRequest where
  room_id : Option Nat
  check_in : Option Int
  check_out : Option Int
deriving DecidableEq, Repr

/-- nights = Math.ceil(Math.abs(end - start) / dayMs) at day granularity:
the absolute difference in days (bookings/index.ts lines 125 to 128). -/
def computeNights (check_in check_out : Int) : Nat :=
  (check_out - check_in).natAbs

/-- The application-level overlap pre-check query of handleCreateBooking
(lines 138 to 144): confirmed bookings on the room with
check_in < candidate check_out and check_out > candidate check_in. -/
def overlapPreCheck (bookings : List Booking) (room_id : Nat)
    (check_in check_out : Int) : List Booking :=
  bookings.filter (fun b =>
    b.room_id == room_id && b.status == BookingStatus.confirmed &&
    decide (b.check_in < check_out) && decide (b.check_out > check_in))

/-- handleCreateBooking: validate presence, compute nights, load the room,
compute the total, run the overlap pre-check, insert the pending booking
(the insert goes through the storage constraints and trigger; an insert
error is thrown to the caller). newId stands for gen_random_uuid. -/
def handleCreateBooking (db : DB) (userId : Nat) (req : BookingRequest)
    (newId : Nat) : Except String (DB × Booking) :=
  match req.room_id, req.check_in, req.check_out with
  | some room_id, some check_in, some check_out =>
    let nights := computeNights check_in check_out
    if nights < 1 then Except.error ("Invalid dates")
    else
      match db.rooms.find? (fun r => r.id == room_id) with
      | none => Except.error ("Room not found")
      | some room =>
        let totalAmount : Int := nights * room.price_per_night
        let existing := overlapPreCheck db.bookings room_id check_in check_out
        if existing.length > 0 then Except.error ("Room unavailable for dates")
        else
          let row : Booking :=
            { id := newId, user_id := userId, room_id := room_id,
              check_in := check_in, check_out := check_out, nights := nights,
              total_amount := totalAmount, currency := room.currency,
              status := BookingStatus.pending }
          match applyBookingWrite db (BookingWrite.insertRow row) with
          | Except.error e => Except.error e
          | Except.ok db2 => Except.ok (db2, row)
  | _, _, _ => Except.error ("Missing fields")

/-! ## initiatePayment (supabase/functions/paymob-initiate/index.ts) -/

/-- The values the PayMob gateway answers with; the empty string and the
order id 0 model JS-falsy answers, which the source treats as failures
(checks on authData.token, orderData.id, keyData.token). -/
structure PayMobProvider where
  authToken : String
  orderId : Nat
  keyToken : String
deriving DecidableEq, Repr

structure InitiateResult where
  payment_key : String
  iframe_url : String
  booking_id : Nat
  amount : Int
  currency : String
deriving DecidableEq, Repr

def iframeUrl (iframeId paymentToken : String) : String :=
  "https://accept.paymob.com/api/acceptance/iframes/" ++ iframeId ++
    "?payment_token=" ++ paymentToken

/-- The fresh-session path of the paymob-initiate handler (lines 87 to 187):
authenticate, create an order keyed by the booking id, request a payment
key, then upsert the payments row on booking_id (the conflict update keeps
the existing row id and raw column, as the upsert lists neither). The
amount sent to the provider is total_amount * 100 cents. The third
component of the result lists the outbound provider calls made. -/
def initiateFresh (db : DB) (booking : Booking) (bid : Nat)
    (prov : PayMobProvider) (iframeId : String) (newPaymentId : Nat) :
    Except String (DB × InitiateResult × List String) :=
  if prov.authToken = "" then Except.error ("Failed to authenticate with PayMob")
  else if prov.orderId = 0 then Except.error ("Failed to create PayMob order")
  else if prov.keyToken = "" then Except.error ("Failed to get PayMob payment key")
  else
    let newRow : Payment :=
      { id := newPaymentId, booking_id := bid, provider := "paymob",
        provider_order_id := toString prov.orderId,
        provider_payment_key := prov.keyToken,
        amount := booking.total_amount, currency := booking.currency,
        status := PaymentStatus.initiated, raw := none }
    let ps :=
      if db.payments.any (fun p => p.booking_id == bid) then
        db.payments.map (fun p =>
          if p.booking_id == bid then { newRow with id := p.id, raw := p.raw } else p)
      else db.payments ++ [newRow]
    Except.ok ({ db with payments := ps },
      { payment_key := prov.keyToken,
        iframe_url := iframeUrl iframeId prov.keyToken,
        booking_id := bid, amount := booking.total_amount,
        currency := booking.currency },
      ["auth", "order", "payment_key"])

/-- The paymob-initiate serve handler: authorize the booking by owner,
require status pending, reuse an initiated payment that already stores a
usable (truthy) provider_payment_key, otherwise run the fresh-session
path. -/
def initiatePayment (db : DB) (userId : Nat) (booking_id : Option Nat)
    (prov : PayMobProvider) (iframeId : String) (newPaymentId : Nat) :
    Except String (DB × InitiateResult × List String) :=
  match booking_id with
  | none => Except.error ("Missing booking_id")
  | some bid =>
    match db.bookings.find? (fun b => b.id == bid && b.user_id == userId) with
    | none => Except.error ("Booking not found or access denied")
    | some booking =>
      if booking.status ≠ BookingStatus.pending then
        Except.error ("Booking is not pending")
      else
        match db.payments.find? (fun p => p.booking_id == bid) with
        | some existingPayment =>
          if existingPayment.status = PaymentStatus.paid then
            Except.error ("Booking already paid")
          else if existingPayment.status = PaymentStatus.initiated ∧
              existingPayment.provider_payment_key ≠ "" then
            Except.ok (db,
              { payment_key := existingPayment.provider_payment_key,
                iframe_url := iframeUrl iframeId existingPayment.provider_payment_key,
                booking_id := bid, amount := booking.total_amount,
                currency := booking.currency },
              [])
          else initiateFresh db booking bid prov iframeId newPaymentId
        | none => initiateFresh db booking bid prov iframeId newPaymentId

/-! ## handleCallback (supabase/functions/paymob-webhook/index.ts) -/

/-- The fixed ordered concatenation of payload fields fed to the keyed
hash (lines 73 to 94), each value in its JS string form. -/
def hmacConcat (e : WebhookEvent) : String :=
  e.amount_cents ++ e.created_at ++ e.currency ++ e.error_occured ++
  e.has_parent_transaction ++ e.txn_id ++ e.integration_id ++
  e.is_3d_secure ++ e.is_auth ++ e.is_capture ++ e.is_refunded ++
  e.is_standalone_payment ++ e.is_voided ++ e.order_id ++ e.owner ++
  e.pending ++ e.source_pan ++ e.source_sub_type ++ e.source_type ++
  toString e.success

def getBookingUserId (db : DB) (bookingId : Nat) : Option Nat :=
  (db.bookings.find? (fun b => b.id == bookingId)).map (fun b => b.user_id)

structure WebhookResult where
  db : DB
  status : Nat
  body : String
  logs : List String
deriving DecidableEq, Repr

/-- The signature check of the webhook (lines 96 to 108): recompute the
keyed hash over the fixed field concatenation and, when a signature was
received and differs, log the discrepancy; the handler then continues
either way (the strict-mode throw is commented out in the source). -/
def hmacLogs (hmacFn : String → String → String) (secret : String)
    (e : WebhookEvent) (receivedHmac : Option String) : List String :=
  let calculatedHmac := hmacFn secret (hmacConcat e)
  match receivedHmac with
  | some h => if h ≠ calculatedHmac then ["HMAC Mismatch"] else []
  | none => []

/-- The payments-row update of the success branch (webhook lines 132 to
136): status paid, raw payload stored, transaction id stored as the
payment key reference. -/
def paymentRowPaid (e : WebhookEvent) (p : Payment) : Payment :=
  { p with status := PaymentStatus.paid
           raw := some e
           provider_payment_key := e.txn_id }

/-- The payments-row update of the failure branch (webhook lines 163 to
166): status failed, raw payload stored. -/
def paymentRowFailed (e : WebhookEvent) (p : Payment) : Payment :=
  { p with status := PaymentStatus.failed
           raw := some e }

/-- The booking_confirmed notification row (webhook lines 144 to 149). -/
def confirmedNotification (db : DB) (merchantOrderId : Nat) : Notification :=
  { user_id := getBookingUserId db merchantOrderId
    kind := "booking_confirmed"
    title := "Booking Confirmed"
    body := "Your booking has been confirmed. Reference: " ++ toString merchantOrderId
    read := false }

/-- The payment_failed notification row (webhook lines 168 to 173). -/
def failedNotification (db : DB) (merchantOrderId : Nat) : Notification :=
  { user_id := getBookingUserId db merchantOrderId
    kind := "payment_failed"
    title := "Payment Failed"
    body := "Payment failed for booking " ++ toString merchantOrderId ++ ". You can retry."
    read := false }

/-- The paymob-webhook serve handler. hmacFn abstracts HMAC-SHA512 over
(secret, message); receivedHmac is the hmac query parameter when present.
On a signature mismatch the source only logs and continues (lines 104 to
108). The booking update runs through the storage trigger and its error
result is ignored by the source (the update call result is not checked),
so a trigger abort leaves the booking row unchanged while the handler
continues and still answers 200. -/
def handleCallback (hmacFn : String → String → String) (secret : String)
    (db : DB) (e : WebhookEvent) (receivedHmac : Option String) :
    WebhookResult :=
  let logs : List String := hmacLogs hmacFn secret e receivedHmac
  match db.payments.find? (fun p => p.booking_id == e.merchant_order_id) with
  | none => { db := db, status := 404, body := "Booking not found", logs := logs }
  | some currentPayment =>
    if currentPayment.status = PaymentStatus.paid then
      { db := db, status := 200, body := "Already paid", logs := logs }
    else if e.success then
      let ps1 := db.payments.map (fun p =>
        if p.id == currentPayment.id then paymentRowPaid e p else p)
      let db1 : DB := { db with payments := ps1 }
      let db2 : DB :=
        match sqlUpdateBookingStatus db1 e.merchant_order_id BookingStatus.confirmed with
        | Except.ok d => d
        | Except.error _ => db1
      let ns := db2.notifications ++ [confirmedNotification db2 e.merchant_order_id]
      let db3 : DB := { db2 with notifications := ns }
      { db := db3, status := 200, body := "Received", logs := logs }
    else
      let ps1 := db.payments.map (fun p =>
        if p.id == currentPayment.id then paymentRowFailed e p else p)
      let db1 : DB := { db with payments := ps1 }
      let ns := db1.notifications ++ [failedNotification db1 e.merchant_order_id]
      let db2 : DB := { db1 with notifications := ns }
      { db := db2, status := 200, body := "Received", logs := logs }

/-! ## Concrete fixtures used by witnesses and counterexamples -/

def roomStd : Room :=
  { id := 1, hotel_id := 1, capacity := 2, price_per_night := 260, currency := "USD" }

/-- A stand-in for the abstract HMAC-SHA512 primitive in concrete runs. -/
def hmacTest : String → String → String := fun secret msg => secret ++ ":" ++ msg

def mkEvent (succ : Bool) (moid : Nat) : WebhookEvent :=
  { amount_cents := "104000", created_at := "ts", currency := "USD",
    error_occured := "false", has_parent_transaction := "false",
    txn_id := "777", integration_id := "5", is_3d_secure := "f",
    is_auth := "f", is_capture := "f", is_refunded := "f",
    is_standalone_payment := "f", is_voided := "f", order_id := "66",
    owner := "own", pending := "f", source_pan := "pan",
    source_sub_type := "sub", source_type := "card",
    success := succ, merchant_order_id := moid }

def bkConfA : Booking :=
  { id := 1, user_id := 5, room_id := 1, check_in := 0, check_out := 5,
    nights := 5, total_amount := 1300, currency := "USD",
    status := BookingStatus.confirmed }

def bkConfB : Booking :=
  { id := 2, user_id := 6, room_id := 1, check_in := 5, check_out := 8,
    nights := 3, total_amount := 780, currency := "USD",
    status := BookingStatus.confirmed }

def dbC1 : DB := { rooms := [roomStd], bookings := [bkConfA], payments := [], notifications := [] }

def dbC1after : DB :=
  { rooms := [roomStd], bookings := [bkConfA, bkConfB], payments := [], notifications := [] }

def bkConfC2 : Booking :=
  { id := 1, user_id := 5, room_id := 1, check_in := 0, check_out := 3,
    nights := 3, total_amount := 780, currency := "USD",
    status := BookingStatus.confirmed }

def dbC2 : DB := { rooms := [roomStd], bookings := [bkConfC2], payments := [], notifications := [] }

/-- Booking 2: pending on room 1 over [2, 6). -/
def bkPend2 : Booking :=
  { id := 2, user_id := 7, room_id := 1, check_in := 2, check_out := 6,
    nights := 4, total_amount := 1040, currency := "USD",
    status := BookingStatus.pending }

/-- Booking 1: confirmed on room 1 over [0, 5), overlapping booking 2. -/
def bkConf1 : Booking :=
  { id := 1, user_id := 5, room_id := 1, check_in := 0, check_out := 5,
    nights := 5, total_amount := 1300, currency := "USD",
    status := BookingStatus.confirmed }

def payInit2 : Payment :=
  { id := 1, booking_id := 2, provider := "paymob", provider_order_id := "55",
    provider_payment_key := "KEY2", amount := 1040, currency := "USD",
    status := PaymentStatus.initiated, raw := none }

def payFail2 : Payment :=
  { id := 1, booking_id := 2, provider := "paymob", provider_order_id := "55",
    provider_payment_key := "", amount := 1040, currency := "USD",
    status := PaymentStatus.failed, raw := none }

/-- Initiated payment on pending booking 2, conflicting confirmed booking 1. -/
def dbInitConflict : DB :=
  { rooms := [roomStd], bookings := [bkConf1, bkPend2], payments := [payInit2],
    notifications := [] }

/-- Initiated payment on pending booking 2, no conflicting booking. -/
def dbInitOk : DB :=
  { rooms := [roomStd], bookings := [bkPend2], payments := [payInit2],
    notifications := [] }

/-- Failed payment on pending booking 2, conflicting confirmed booking 1. -/
def dbFailConflict : DB :=
  { rooms := [roomStd], bookings := [bkConf1, bkPend2], payments := [payFail2],
    notifications := [] }

/-- Failed payment on pending booking 2, no conflicting booking. -/
def dbFailOk : DB :=
  { rooms := [roomStd], bookings := [bkPend2], payments := [payFail2],
    notifications := [] }

def provStd : PayMobProvider := { authToken := "authTok", orderId := 66, keyToken := "NEWKEY" }

def dbC8 : DB := { rooms := [roomStd], bookings := [], payments := [], notifications := [] }

/-- Booking 3: confirmed on room 2 over [0, 5). -/
def bkConf3 : Booking :=
  { id := 3, user_id := 8, room_id := 2, check_in := 0, check_out := 5,
    nights := 5, total_amount := 1300, currency := "USD",
    status := BookingStatus.confirmed }

/-- Booking 4: pending on room 2 over [1, 6), overlapping booking 3. -/
def bkPend4 : Booking :=
  { id := 4, user_id := 9, room_id := 2, check_in := 1, check_out := 6,
    nights := 5, total_amount := 1300, currency := "USD",
    status := BookingStatus.pending }

def payInit4 : Payment :=
  { id := 2, booking_id := 4, provider := "paymob", provider_order_id := "70",
    provider_payment_key := "KEY4", amount := 1300, currency := "USD",
    status := PaymentStatus.initiated, raw := none }

/-- Initiated payment on pending booking 4, conflicting confirmed booking 3. -/
def dbC6 : DB :=
  { rooms := [roomStd], bookings := [bkConf3, bkPend4], payments := [payInit4],
    notifications := [] }

/-! ## Helper lemmas -/

/-- When the trigger accepts a confirmed row, no other confirmed booking on
the same room in the scanned table overlaps it. -/
theorem check_booking_overlap_spec (table : List Booking) (NEW : Booking)
    (hconf : NEW.status = BookingStatus.confirmed)
    (h : check_booking_overlap table NEW = true) :
    ∀ b ∈ table, b.room_id = NEW.room_id → b.id ≠ NEW.id →
      b.status = BookingStatus.confirmed →
      ¬(b.check_in < NEW.check_out ∧ b.check_out > NEW.check_in) := by
  intro b hb hroom hid hstat hov
  unfold check_booking_overlap at h
  rw [if_pos hconf] at h
  have h2 : (table.any (fun b =>
      b.room_id == NEW.room_id && b.id != NEW.id &&
      b.status == BookingStatus.confirmed &&
      decide (b.check_in < NEW.check_out) && decide (b.check_out > NEW.check_in)))
      = false := by
    revert h
    cases table.any (fun b =>
      b.room_id == NEW.room_id && b.id != NEW.id &&
      b.status == BookingStatus.confirmed &&
      decide (b.check_in < NEW.check_out) && decide (b.check_out > NEW.check_in)) <;>
      simp
  rw [List.any_eq_false] at h2
  apply h2 b hb
  simp [hroom, hid, hstat, hov.1, hov.2]

/-- Unfolding of a successful bookings-table insert. -/
theorem applyBookingWrite_insert_ok (db db' : DB) (NEW : Booking)
    (hok : applyBookingWrite db (BookingWrite.insertRow NEW) = Except.ok db') :
    check_booking_overlap db.bookings NEW = true ∧
    db'.bookings = db.bookings ++ [NEW] := by
  simp only [applyBookingWrite] at hok
  by_cases h1 : (!check_booking_overlap db.bookings NEW) = true
  · rw [if_pos h1] at hok; cases hok
  · rw [if_neg h1] at hok
    by_cases h2 : (!bookingRowChecks NEW) = true
    · rw [if_pos h2] at hok; cases hok
    · rw [if_neg h2] at hok
      by_cases h3 : (db.bookings.any fun b => b.id == NEW.id) = true
      · rw [if_pos h3] at hok; cases hok
      · rw [if_neg h3] at hok
        have hdb := Except.ok.inj hok
        subst hdb
        refine ⟨?_, rfl⟩
        revert h1
        cases check_booking_overlap db.bookings NEW <;> simp

/-- Unfolding of a successful bookings-table update: either no row matched
and the table is unchanged, or the trigger accepted the NEW image and the
matching row is replaced. -/
theorem applyBookingWrite_update_ok (db db' : DB) (NEW : Booking)
    (hok : applyBookingWrite db (BookingWrite.updateRow NEW) = Except.ok db') :
    db'.bookings = db.bookings ∨
    (check_booking_overlap db.bookings NEW = true ∧
      db'.bookings = db.bookings.map (fun b => if b.id == NEW.id then NEW else b)) := by
  simp only [applyBookingWrite] at hok
  by_cases h0 : (db.bookings.any fun b => b.id == NEW.id) = true
  · rw [if_pos h0] at hok
    by_cases h1 : (!check_booking_overlap db.bookings NEW) = true
    · rw [if_pos h1] at hok; cases hok
    · rw [if_neg h1] at hok
      by_cases h2 : (!bookingRowChecks NEW) = true
      · rw [if_pos h2] at hok; cases hok
      · rw [if_neg h2] at hok
        have hdb := Except.ok.inj hok
        subst hdb
        refine Or.inr ⟨?_, rfl⟩
        revert h1
        cases check_booking_overlap db.bookings NEW <;> simp
  · rw [if_neg h0] at hok
    have hdb := Except.ok.inj hok
    subst hdb
    exact Or.inl rfl

/-- C1: every insert or update accepted by the storage layer preserves the
invariant that no two distinct confirmed bookings on the same room have
overlapping half-open date ranges; the trigger aborts (errors) any write
whose confirmed result would overlap another confirmed booking on the same
room, excluding the written row itself by id. -/
theorem c1_trigger_preserves_noConfirmedOverlap (db db' : DB) (w : BookingWrite)
    (hinv : noConfirmedOverlap db.bookings)
    (hok : applyBookingWrite db w = Except.ok db') :
    noConfirmedOverlap db'.bookings := by
  cases w with
  | insertRow NEW =>
    obtain ⟨htrig, hbs⟩ := applyBookingWrite_insert_ok db db' NEW hok
    rw [hbs]
    intro a ha b hb hne hca hcb hroom
    rcases List.mem_append.mp ha with ha0 | ha1 <;>
      rcases List.mem_append.mp hb with hb0 | hb1
    · exact hinv a ha0 b hb0 hne hca hcb hroom
    · have hbNEW : b = NEW := List.mem_singleton.mp hb1
      subst hbNEW
      exact check_booking_overlap_spec db.bookings b hcb htrig a ha0 hroom hne hca
    · have haNEW : a = NEW := List.mem_singleton.mp ha1
      subst haNEW
      intro hov
      exact check_booking_overlap_spec db.bookings a hca htrig b hb0 hroom.symm
        (Ne.symm hne) hcb ⟨hov.2, hov.1⟩
    · have haNEW : a = NEW := List.mem_singleton.mp ha1
      have hbNEW : b = NEW := List.mem_singleton.mp hb1
      subst haNEW; subst hbNEW
      exact absurd rfl hne
  | updateRow NEW =>
    rcases applyBookingWrite_update_ok db db' NEW hok with hbs | ⟨htrig, hbs⟩
    · rw [hbs]; exact hinv
    · rw [hbs]
      intro a ha b hb hne hca hcb hroom
      obtain ⟨a0, ha0, haEq⟩ := List.mem_map.mp ha
      obtain ⟨b0, hb0, hbEq⟩ := List.mem_map.mp hb
      by_cases haId : (a0.id == NEW.id) = true <;>
        by_cases hbId : (b0.id == NEW.id) = true
      · rw [if_pos haId] at haEq
        rw [if_pos hbId] at hbEq
        rw [← haEq, ← hbEq] at hne
        exact absurd rfl hne
      · rw [if_pos haId] at haEq
        rw [if_neg hbId] at hbEq
        subst haEq; subst hbEq
        intro hov
        exact check_booking_overlap_spec db.bookings NEW hca htrig b0 hb0
          hroom.symm (by simpa using hbId) hcb ⟨hov.2, hov.1⟩
      · rw [if_neg haId] at haEq
        rw [if_pos hbId] at hbEq
        subst haEq; subst hbEq
        exact check_booking_overlap_spec db.bookings NEW hcb htrig a0 ha0
          hroom (by simpa using haId) hca
      · rw [if_neg haId] at haEq
        rw [if_neg hbId] at hbEq
        subst haEq; subst hbEq
        exact hinv a0 ha0 b0 hb0 hne hca hcb hroom

/-- find? commutes with a map that preserves the looked-up key. -/
theorem payments_find_map (ps : List Payment) (oid : Nat) (f : Payment → Payment)
    (hf : ∀ q, (f q).booking_id = q.booking_id) :
    (ps.map f).find? (fun p => p.booking_id == oid) =
      (ps.find? (fun p => p.booking_id == oid)).map f := by
  induction ps with
  | nil => rfl
  | cons x xs ih =>
    cases hx : (x.booking_id == oid) with
    | true =>
      have hfx : ((f x).booking_id == oid) = true := by rw [hf x]; exact hx
      simp [List.find?_cons, hx, hfx]
    | false =>
      have hfx : ((f x).booking_id == oid) = false := by rw [hf x]; exact hx
      simp [List.find?_cons, hx, hfx, ih]

/-- Replacing the row found by id leaves exactly the replacement to be
found afterwards. -/
theorem booking_replace_find (bs : List Booking) (bid : Nat) (b NEW : Booking)
    (hNEW : NEW.id = b.id)
    (hfind : bs.find? (fun x => x.id == bid) = some b) :
    (bs.map (fun x => if x.id == b.id then NEW else x)).find? (fun x => x.id == bid)
      = some NEW := by
  induction bs with
  | nil => cases hfind
  | cons x xs ih =>
    cases hx : (x.id == bid) with
    | true =>
      have hxb : x = b := by
        have h2 := hfind
        rw [List.find?_cons, hx] at h2
        simpa using h2
      subst hxb
      have hbid : x.id = bid := by simpa using hx
      simp [List.find?_cons, hNEW, hbid]
    | false =>
      have hfind2 : xs.find? (fun y => y.id == bid) = some b := by
        have h2 := hfind
        rw [List.find?_cons, hx] at h2
        simpa using h2
      have hb := List.find?_some hfind2
      have hxid : x.id ≠ bid := by simpa using hx
      have hbid : b.id = bid := by simpa using hb
      have hxbne : (x.id == b.id) = false := by
        rw [beq_eq_false_iff_ne, hbid]
        exact hxid
      have hstep : List.map (fun y => if (y.id == b.id) = true then NEW else y) (x :: xs)
          = x :: List.map (fun y => if (y.id == b.id) = true then NEW else y) xs := by
        simp only [List.map_cons]
        rw [hxbne]
        simp
      rw [hstep, List.find?_cons, hx]
      exact ih hfind2

/-- find? over an append when the left part contains no match. -/
theorem find_append_of_none {α : Type} (p : α → Bool) (l1 l2 : List α)
    (h : l1.find? p = none) : (l1 ++ l2).find? p = l2.find? p := by
  induction l1 with
  | nil => rfl
  | cons x xs ih =>
    by_cases hx : p x = true
    · rw [List.find?_cons_of_pos _ hx] at h; cases h
    · rw [List.find?_cons_of_neg _ hx] at h
      rw [List.cons_append, List.find?_cons_of_neg _ hx, ih h]

/-- The webhook booking update succeeds and replaces the row when the row
exists, its constraints hold, and the confirmed image passes the trigger. -/
theorem sqlUpdateBookingStatus_confirm_ok (db : DB) (bid : Nat) (b : Booking)
    (hb : db.bookings.find? (fun x => x.id == bid) = some b)
    (hchecks : bookingRowChecks b = true)
    (hnoconf : check_booking_overlap db.bookings
        { b with status := BookingStatus.confirmed } = true) :
    sqlUpdateBookingStatus db bid BookingStatus.confirmed =
      Except.ok { db with bookings := db.bookings.map (fun x =>
        if x.id == b.id then { b with status := BookingStatus.confirmed } else x) } := by
  have hmem : b ∈ db.bookings := List.mem_of_find?_eq_some hb
  have hany : (db.bookings.any fun x =>
      x.id == ({ b with status := BookingStatus.confirmed } : Booking).id) = true := by
    rw [List.any_eq_true]
    exact ⟨b, hmem, by simp⟩
  have hchecksNEW : bookingRowChecks { b with status := BookingStatus.confirmed } = true :=
    hchecks
  unfold sqlUpdateBookingStatus
  rw [hb]
  simp [applyBookingWrite, hany, hnoconf, hchecksNEW]

/-- A callback on a payment already paid is a no-op answering 200
(webhook lines 126 to 128). -/
theorem handleCallback_paid_noop (hmacFn : String → String → String)
    (secret : String) (db : DB) (e : WebhookEvent) (rh : Option String)
    (p : Payment)
    (hp : db.payments.find? (fun q => q.booking_id == e.merchant_order_id) = some p)
    (hpaid : p.status = PaymentStatus.paid) :
    handleCallback hmacFn secret db e rh =
      { db := db, status := 200, body := "Already paid",
        logs := hmacLogs hmacFn secret e rh } := by
  unfold handleCallback
  rw [hp]
  simp [hpaid]

/-- Full evaluation of the webhook success branch (lines 130 to 159) when
the booking row exists and the confirmed image passes the storage trigger:
payment marked paid, booking confirmed, booking_confirmed notification
appended for the owner, 200 answered. -/
theorem handleCallback_success_eq (hmacFn : String → String → String)
    (secret : String) (db : DB) (e : WebhookEvent) (rh : Option String)
    (p : Payment) (b : Booking)
    (hp : db.payments.find? (fun q => q.booking_id == e.merchant_order_id) = some p)
    (hnotpaid : ¬(p.status = PaymentStatus.paid))
    (hsucc : e.success = true)
    (hb : db.bookings.find? (fun x => x.id == e.merchant_order_id) = some b)
    (hchecks : bookingRowChecks b = true)
    (hnoconf : check_booking_overlap db.bookings
        { b with status := BookingStatus.confirmed } = true) :
    handleCallback hmacFn secret db e rh =
      { db := { db with
          payments := db.payments.map (fun q =>
            if q.id == p.id then paymentRowPaid e q else q)
          bookings := db.bookings.map (fun x =>
            if x.id == b.id then { b with status := BookingStatus.confirmed } else x)
          notifications := db.notifications ++
            [⟨some b.user_id, "booking_confirmed", "Booking Confirmed",
              "Your booking has been confirmed. Reference: " ++
                toString e.merchant_order_id, false⟩] }
        status := 200
        body := "Received"
        logs := hmacLogs hmacFn secret e rh } := by
  have hsql := sqlUpdateBookingStatus_confirm_ok
    { db with payments := db.payments.map (fun q =>
        if q.id == p.id then paymentRowPaid e q else q) }
    e.merchant_order_id b hb hchecks hnoconf
  have huser : getBookingUserId
      { db with
        payments := db.payments.map (fun q =>
          if q.id == p.id then paymentRowPaid e q else q)
        bookings := db.bookings.map (fun x =>
          if x.id == b.id then { b with status := BookingStatus.confirmed } else x) }
      e.merchant_order_id = some b.user_id := by
    simp only [getBookingUserId]
    rw [booking_replace_find db.bookings e.merchant_order_id b
      { b with status := BookingStatus.confirmed } rfl hb]
    rfl
  unfold handleCallback
  simp only [hp]
  rw [if_neg hnotpaid, if_pos hsucc]
  rw [hsql]
  dsimp only
  simp only [confirmedNotification]
  rw [huser]

/-- Full evaluation of the webhook failure branch (lines 161 to 174):
payment marked failed, bookings untouched, payment_failed notification
appended, 200 answered. -/
theorem handleCallback_failure_eq (hmacFn : String → String → String)
    (secret : String) (db : DB) (e : WebhookEvent) (rh : Option String)
    (p : Payment)
    (hp : db.payments.find? (fun q => q.booking_id == e.merchant_order_id) = some p)
    (hnotpaid : ¬(p.status = PaymentStatus.paid))
    (hfail : e.success = false) :
    handleCallback hmacFn secret db e rh =
      { db := { db with
          payments := db.payments.map (fun q =>
            if q.id == p.id then paymentRowFailed e q else q)
          notifications := db.notifications ++
            [⟨getBookingUserId db e.merchant_order_id, "payment_failed",
              "Payment Failed", "Payment failed for booking " ++
                toString e.merchant_order_id ++ ". You can retry.", false⟩] }
        status := 200
        body := "Received"
        logs := hmacLogs hmacFn secret e rh } := by
  unfold handleCallback
  simp only [hp]
  rw [if_neg hnotpaid, if_neg (by rw [hfail]; simp)]
  simp [failedNotification, getBookingUserId]

/-- The state transition, response status and body of the webhook handler
do not depend on the received signature; only the log output does. -/
theorem handleCallback_logs_eq (hmacFn : String → String → String)
    (secret : String) (db : DB) (e : WebhookEvent) (rh : Option String) :
    handleCallback hmacFn secret db e rh =
      { handleCallback hmacFn secret db e none with
        logs := hmacLogs hmacFn secret e rh } := by
  unfold handleCallback
  cases hfind : db.payments.find? (fun q => q.booking_id == e.merchant_order_id) with
  | none => simp [hfind]
  | some cp =>
    by_cases hpaid : cp.status = PaymentStatus.paid
    · simp [hfind, hpaid]
    · by_cases hsucc : e.success = true
      · simp [hfind, hpaid, hsucc]
      · simp [hfind, hpaid, hsucc]

/-- Every error a bookings-table write can raise is one of three fixed
messages, none of which is the pre-check rejection message. -/
theorem applyBookingWrite_error_strings (db : DB) (w : BookingWrite) (e : String)
    (h : applyBookingWrite db w = Except.error e) :
    e = "Room is already booked for these dates." ∨
    e = "new row violates a check constraint on bookings" ∨
    e = "duplicate key value violates unique constraint bookings_pkey" := by
  cases w with
  | insertRow NEW =>
    simp only [applyBookingWrite] at h
    split at h
    · exact Or.inl (Except.error.inj h).symm
    · split at h
      · exact Or.inr (Or.inl (Except.error.inj h).symm)
      · split at h
        · exact Or.inr (Or.inr (Except.error.inj h).symm)
        · cases h
  | updateRow NEW =>
    simp only [applyBookingWrite] at h
    split at h
    · split at h
      · exact Or.inl (Except.error.inj h).symm
      · split at h
        · exact Or.inr (Or.inl (Except.error.inj h).symm)
        · cases h
    · cases h

/-- C1: for two distinct confirmed bookings on the same room the half-open
date ranges never overlap, and this invariant is preserved by every
insert or update the storage layer accepts: the trigger aborts any write
whose resulting confirmed row would overlap another confirmed booking on
the same room, excluding the written row itself by id.
(Restatement of c1_trigger_preserves_noConfirmedOverlap for the claim.) -/
theorem c1_overlap_invariant_preserved (db db' : DB) (w : BookingWrite)
    (hinv : noConfirmedOverlap db.bookings)
    (hok : applyBookingWrite db w = Except.ok db') :
    noConfirmedOverlap db'.bookings :=
  c1_trigger_preserves_noConfirmedOverlap db db' w hinv hok

theorem c1_overlap_invariant_preserved_witness :
    noConfirmedOverlap dbC1.bookings ∧
    applyBookingWrite dbC1 (BookingWrite.insertRow bkConfB) = Except.ok dbC1after ∧
    noConfirmedOverlap dbC1after.bookings :=
  ⟨by decide, by decide,
    c1_overlap_invariant_preserved dbC1 dbC1after (BookingWrite.insertRow bkConfB)
      (by decide) (by decide)⟩

/-- C2: given a well-formed request (fields present, check_in before
check_out) on an existing room, the createBooking pre-check rejects with
the room-unavailable error exactly when some existing booking on the room
with status confirmed overlaps the candidate range under the half-open
test; disjoint or endpoint-touching ranges and pending bookings never
produce that rejection. -/
theorem c2_precheck_rejects_iff_confirmed_overlap (db : DB)
    (userId rid newId : Nat) (ci co : Int) (room : Room)
    (hroom : db.rooms.find? (fun r => r.id == rid) = some room)
    (hrange : ci < co) :
    (handleCreateBooking db userId
        { room_id := some rid, check_in := some ci, check_out := some co } newId =
      Except.error ("Room unavailable for dates")) ↔
      ∃ b ∈ db.bookings, b.room_id = rid ∧ b.status = BookingStatus.confirmed ∧
        b.check_in < co ∧ b.check_out > ci := by
  have hn : ¬(computeNights ci co < 1) := by
    unfold computeNights
    omega
  have hkey : ((overlapPreCheck db.bookings rid ci co).length > 0) ↔
      ∃ b ∈ db.bookings, b.room_id = rid ∧ b.status = BookingStatus.confirmed ∧
        b.check_in < co ∧ b.check_out > ci := by
    unfold overlapPreCheck
    rw [gt_iff_lt, List.length_pos_iff_exists_mem]
    constructor
    · rintro ⟨x, hx⟩
      rw [List.mem_filter] at hx
      have hpx := hx.2
      simp only [Bool.and_eq_true, beq_iff_eq, decide_eq_true_eq] at hpx
      exact ⟨x, hx.1, hpx.1.1.1, hpx.1.1.2, hpx.1.2, hpx.2⟩
    · rintro ⟨b, hbmem, h1, h2, h3, h4⟩
      refine ⟨b, List.mem_filter.mpr ⟨hbmem, ?_⟩⟩
      simp [h1, h2, h3, h4]
  unfold handleCreateBooking
  dsimp only
  rw [if_neg hn, hroom]
  dsimp only
  by_cases hex : (overlapPreCheck db.bookings rid ci co).length > 0
  · rw [if_pos hex]
    exact iff_of_true rfl (hkey.mp hex)
  · rw [if_neg hex]
    refine iff_of_false ?_ (fun hcon => hex (hkey.mpr hcon))
    intro hcontra
    split at hcontra
    · rename_i e heq
      have he := Except.error.inj hcontra
      rcases applyBookingWrite_error_strings db _ e heq with h | h | h <;>
        · rw [he] at h
          exact absurd h (by decide)
    · cases hcontra

theorem c2_precheck_rejects_iff_confirmed_overlap_witness :
    dbC2.rooms.find? (fun r => r.id == 1) = some roomStd ∧ (1 : Int) < 4 ∧
    handleCreateBooking dbC2 7
        { room_id := some 1, check_in := some 1, check_out := some 4 } 9 =
      Except.error ("Room unavailable for dates") :=
  ⟨by decide, by decide,
    (c2_precheck_rejects_iff_confirmed_overlap dbC2 7 1 9 1 4 roomStd
        (by decide) (by decide)).mpr
      ⟨bkConfC2, by decide, by decide, by decide, by decide, by decide⟩⟩

/-- C8: the code computes nights with Math.abs, so a request whose
check_out lies strictly before check_in yields nights = 3 at the inputs
below, passes the nights < 1 validation instead of failing with the
invalid-date-range error, and is only stopped by the storage constraint
check_dates, surfacing a raw constraint error; no booking is stored. -/
theorem c8_reversed_range_passes_nights_check :
    computeNights 3 0 = 3 ∧
    handleCreateBooking dbC8 7
        { room_id := some 1, check_in := some 3, check_out := some 0 } 10 ≠
      Except.error ("Invalid dates") ∧
    handleCreateBooking dbC8 7
        { room_id := some 1, check_in := some 3, check_out := some 0 } 10 =
      Except.error ("new row violates a check constraint on bookings") := by
  decide

/-- C3 counterexample: a success callback for booking 2 (payment
initiated) while confirmed booking 1 overlaps the same room. The handler
marks the payment paid, but the storage trigger aborts the booking update;
the source ignores that error, so booking 2 remains pending (and the
handler still answers 200 and inserts the notification). This falsifies
the claim that every such callback sets the booking to confirmed. -/
theorem c3_counterexample_trigger_blocks_confirmation :
    ((handleCallback hmacTest "sec" dbInitConflict (mkEvent true 2) none).db.payments.find?
        (fun q => q.booking_id == 2)).map Payment.status = some PaymentStatus.paid ∧
    ((handleCallback hmacTest "sec" dbInitConflict (mkEvent true 2) none).db.bookings.find?
        (fun x => x.id == 2)).map Booking.status = some BookingStatus.pending := by
  decide

/-- C3 amended: a success callback resolving to an initiated payment marks
the payment paid, inserts a booking_confirmed notification for the owner
and answers 200; the booking becomes confirmed provided no other confirmed
booking on the same room overlaps it (the storage trigger passes) —
otherwise the trigger aborts the update, the handler ignores the error and
the booking stays pending. -/
theorem c3_success_confirms_when_no_conflict (hmacFn : String → String → String)
    (secret : String) (db : DB) (e : WebhookEvent) (rh : Option String)
    (p : Payment) (b : Booking)
    (hp : db.payments.find? (fun q => q.booking_id == e.merchant_order_id) = some p)
    (hpstat : p.status = PaymentStatus.initiated)
    (hsucc : e.success = true)
    (hb : db.bookings.find? (fun x => x.id == e.merchant_order_id) = some b)
    (hchecks : bookingRowChecks b = true)
    (hnoconf : check_booking_overlap db.bookings
        { b with status := BookingStatus.confirmed } = true) :
    (handleCallback hmacFn secret db e rh).db.payments.find?
        (fun q => q.booking_id == e.merchant_order_id) = some (paymentRowPaid e p) ∧
    (handleCallback hmacFn secret db e rh).db.bookings.find?
        (fun x => x.id == e.merchant_order_id) =
      some { b with status := BookingStatus.confirmed } ∧
    (∃ n ∈ (handleCallback hmacFn secret db e rh).db.notifications,
      n.user_id = some b.user_id ∧ n.kind = "booking_confirmed") ∧
    (handleCallback hmacFn secret db e rh).status = 200 := by
  have hnotpaid : ¬(p.status = PaymentStatus.paid) := by
    rw [hpstat]
    decide
  rw [handleCallback_success_eq hmacFn secret db e rh p b hp hnotpaid hsucc hb
    hchecks hnoconf]
  have hf : ∀ q : Payment,
      ((if (q.id == p.id) = true then paymentRowPaid e q else q) : Payment).booking_id
        = q.booking_id := by
    intro q
    by_cases h : (q.id == p.id) = true <;> simp [h, paymentRowPaid]
  refine ⟨?_, ?_, ?_, ?_⟩
  · dsimp only
    rw [payments_find_map db.payments e.merchant_order_id
      (fun q => if q.id == p.id then paymentRowPaid e q else q) hf, hp]
    simp [paymentRowPaid]
  · dsimp only
    exact booking_replace_find db.bookings e.merchant_order_id b
      { b with status := BookingStatus.confirmed } rfl hb
  · dsimp only
    exact ⟨_, List.mem_append_right _ (List.mem_singleton.mpr rfl), rfl, rfl⟩
  · rfl

theorem c3_success_confirms_when_no_conflict_witness :
    dbInitOk.payments.find?
        (fun q => q.booking_id == (mkEvent true 2).merchant_order_id) = some payInit2 ∧
    ((handleCallback hmacTest "sec" dbInitOk (mkEvent true 2) none).db.bookings.find?
        (fun x => x.id == (mkEvent true 2).merchant_order_id)) =
      some { bkPend2 with status := BookingStatus.confirmed } :=
  ⟨by decide,
    (c3_success_confirms_when_no_conflict hmacTest "sec" dbInitOk (mkEvent true 2)
        none payInit2 bkPend2 (by decide) (by decide) (by decide) (by decide)
        (by decide) (by decide)).2.1⟩

/-- Projections of the webhook success branch when the trigger passes:
payment found paid, booking found confirmed, owner notification present,
200 answered. Shared by several claims below. -/
theorem handleCallback_success_projections (hmacFn : String → String → String)
    (secret : String) (db : DB) (e : WebhookEvent) (rh : Option String)
    (p : Payment) (b : Booking)
    (hp : db.payments.find? (fun q => q.booking_id == e.merchant_order_id) = some p)
    (hnotpaid : ¬(p.status = PaymentStatus.paid))
    (hsucc : e.success = true)
    (hb : db.bookings.find? (fun x => x.id == e.merchant_order_id) = some b)
    (hchecks : bookingRowChecks b = true)
    (hnoconf : check_booking_overlap db.bookings
        { b with status := BookingStatus.confirmed } = true) :
    (handleCallback hmacFn secret db e rh).db.payments.find?
        (fun q => q.booking_id == e.merchant_order_id) = some (paymentRowPaid e p) ∧
    (handleCallback hmacFn secret db e rh).db.bookings.find?
        (fun x => x.id == e.merchant_order_id) =
      some { b with status := BookingStatus.confirmed } ∧
    (∃ n ∈ (handleCallback hmacFn secret db e rh).db.notifications,
      n.user_id = some b.user_id ∧ n.kind = "booking_confirmed") ∧
    (handleCallback hmacFn secret db e rh).status = 200 := by
  rw [handleCallback_success_eq hmacFn secret db e rh p b hp hnotpaid hsucc hb
    hchecks hnoconf]
  have hf : ∀ q : Payment,
      ((if (q.id == p.id) = true then paymentRowPaid e q else q) : Payment).booking_id
        = q.booking_id := by
    intro q
    by_cases h : (q.id == p.id) = true <;> simp [h, paymentRowPaid]
  refine ⟨?_, ?_, ?_, ?_⟩
  · dsimp only
    rw [payments_find_map db.payments e.merchant_order_id
      (fun q => if q.id == p.id then paymentRowPaid e q else q) hf, hp]
    simp [paymentRowPaid]
  · dsimp only
    exact booking_replace_find db.bookings e.merchant_order_id b
      { b with status := BookingStatus.confirmed } rfl hb
  · dsimp only
    exact ⟨_, List.mem_append_right _ (List.mem_singleton.mpr rfl), rfl, rfl⟩
  · rfl

/-- C5 counterexample: with a conflicting confirmed booking on the room,
delivering the same success callback three times marks the payment paid
but never transitions the booking to confirmed (zero times, not once):
the storage trigger blocks each attempt and the handler ignores it. -/
theorem c5_counterexample_conflict_never_confirms :
    ((handleCallback hmacTest "s5"
        (handleCallback hmacTest "s5"
          (handleCallback hmacTest "s5" dbInitConflict (mkEvent true 2) none).db
          (mkEvent true 2) none).db
        (mkEvent true 2) none).db.bookings.find?
      (fun x => x.id == 2)).map Booking.status = some BookingStatus.pending ∧
    ((handleCallback hmacTest "s5"
        (handleCallback hmacTest "s5"
          (handleCallback hmacTest "s5" dbInitConflict (mkEvent true 2) none).db
          (mkEvent true 2) none).db
        (mkEvent true 2) none).db.payments.find?
      (fun q => q.booking_id == 2)).map Payment.status = some PaymentStatus.paid := by
  decide

/-- C5 amended: a callback on a payment already paid leaves the store
untouched and answers success, whatever the event outcome; consequently,
delivering the same success callback three times to an initiated payment
marks the payment paid exactly once and — provided no conflicting
confirmed booking overlaps the room (storage trigger passes) — the
booking confirmed exactly once: the second and third deliveries return
the unchanged store with the Already paid response. -/
theorem c5_webhook_replay_idempotent (hmacFn : String → String → String)
    (secret : String) (db : DB) (e : WebhookEvent)
    (rh rh2 rh3 : Option String) (p : Payment) (b : Booking)
    (hp : db.payments.find? (fun q => q.booking_id == e.merchant_order_id) = some p)
    (hpstat : p.status = PaymentStatus.initiated)
    (hsucc : e.success = true)
    (hb : db.bookings.find? (fun x => x.id == e.merchant_order_id) = some b)
    (hchecks : bookingRowChecks b = true)
    (hnoconf : check_booking_overlap db.bookings
        { b with status := BookingStatus.confirmed } = true) :
    (∀ (db0 : DB) (e0 : WebhookEvent) (rh0 : Option String) (p0 : Payment),
      db0.payments.find? (fun q => q.booking_id == e0.merchant_order_id) = some p0 →
      p0.status = PaymentStatus.paid →
      handleCallback hmacFn secret db0 e0 rh0 =
        { db := db0, status := 200, body := "Already paid",
          logs := hmacLogs hmacFn secret e0 rh0 }) ∧
    ((handleCallback hmacFn secret db e rh).db.payments.find?
        (fun q => q.booking_id == e.merchant_order_id)).map Payment.status
      = some PaymentStatus.paid ∧
    ((handleCallback hmacFn secret db e rh).db.bookings.find?
        (fun x => x.id == e.merchant_order_id)).map Booking.status
      = some BookingStatus.confirmed ∧
    handleCallback hmacFn secret (handleCallback hmacFn secret db e rh).db e rh2 =
      { db := (handleCallback hmacFn secret db e rh).db, status := 200,
        body := "Already paid", logs := hmacLogs hmacFn secret e rh2 } ∧
    handleCallback hmacFn secret
        (handleCallback hmacFn secret
          (handleCallback hmacFn secret db e rh).db e rh2).db e rh3 =
      { db := (handleCallback hmacFn secret db e rh).db, status := 200,
        body := "Already paid", logs := hmacLogs hmacFn secret e rh3 } := by
  have hnotpaid : ¬(p.status = PaymentStatus.paid) := by
    rw [hpstat]
    decide
  obtain ⟨hpay, hbook, hnotif, hstat⟩ := handleCallback_success_projections
    hmacFn secret db e rh p b hp hnotpaid hsucc hb hchecks hnoconf
  have h2 := handleCallback_paid_noop hmacFn secret
    (handleCallback hmacFn secret db e rh).db e rh2 (paymentRowPaid e p) hpay rfl
  refine ⟨fun db0 e0 rh0 p0 h1 hpd =>
      handleCallback_paid_noop hmacFn secret db0 e0 rh0 p0 h1 hpd,
    ?_, ?_, h2, ?_⟩
  · rw [hpay]
    rfl
  · rw [hbook]
    rfl
  · rw [h2]
    exact handleCallback_paid_noop hmacFn secret
      (handleCallback hmacFn secret db e rh).db e rh3 (paymentRowPaid e p) hpay rfl

theorem c5_webhook_replay_idempotent_witness :
    dbInitOk.payments.find?
        (fun q => q.booking_id == (mkEvent true 2).merchant_order_id) = some payInit2 ∧
    handleCallback hmacTest "s5w"
        (handleCallback hmacTest "s5w" dbInitOk (mkEvent true 2) none).db
        (mkEvent true 2) none =
      { db := (handleCallback hmacTest "s5w" dbInitOk (mkEvent true 2) none).db,
        status := 200, body := "Already paid",
        logs := hmacLogs hmacTest "s5w" (mkEvent true 2) none } :=
  ⟨by decide,
    (c5_webhook_replay_idempotent hmacTest "s5w" dbInitOk (mkEvent true 2)
        none none none payInit2 bkPend2 (by decide) (by decide) (by decide)
        (by decide) (by decide) (by decide)).2.2.2.1⟩

/-- C6: the three writes of the success branch are not applied atomically.
At this concrete input (initiated payment for booking 4 while confirmed
booking 3 overlaps the same room) handleCallback completes with the
payment marked paid while the booking is still pending, and answers 200:
the booking update failed inside the store (overlap trigger) and the
handler ignored the error and carried on. -/
theorem c6_paid_pending_state_reachable :
    ((handleCallback hmacTest "s6" dbC6 (mkEvent true 4) none).db.payments.find?
        (fun q => q.booking_id == 4)).map Payment.status = some PaymentStatus.paid ∧
    ((handleCallback hmacTest "s6" dbC6 (mkEvent true 4) none).db.bookings.find?
        (fun x => x.id == 4)).map Booking.status = some BookingStatus.pending ∧
    (handleCallback hmacTest "s6" dbC6 (mkEvent true 4) none).status = 200 := by
  decide

/-- C7: a failure callback on an initiated payment marks the payment
failed, inserts a payment_failed notification, leaves the bookings table
untouched (the booking stays pending) and answers 200; a subsequent
initiatePayment call on that booking then runs the full fresh-session
path against the provider (auth, order, payment key) and returns the new
key. -/
theorem c7_failure_keeps_booking_pending_allows_retry
    (hmacFn : String → String → String) (secret : String) (db : DB)
    (e : WebhookEvent) (rh : Option String) (p : Payment) (b : Booking)
    (uid : Nat) (prov : PayMobProvider) (ifr : String) (pid : Nat)
    (hp : db.payments.find? (fun q => q.booking_id == e.merchant_order_id) = some p)
    (hpstat : p.status = PaymentStatus.initiated)
    (hfail : e.success = false)
    (hb : db.bookings.find?
        (fun x => x.id == e.merchant_order_id && x.user_id == uid) = some b)
    (hbpend : b.status = BookingStatus.pending)
    (hauth : prov.authToken ≠ "") (horder : prov.orderId ≠ 0)
    (hkey : prov.keyToken ≠ "") :
    (handleCallback hmacFn secret db e rh).db.payments.find?
        (fun q => q.booking_id == e.merchant_order_id) = some (paymentRowFailed e p) ∧
    (handleCallback hmacFn secret db e rh).db.bookings = db.bookings ∧
    (∃ n ∈ (handleCallback hmacFn secret db e rh).db.notifications,
      n.kind = "payment_failed") ∧
    (handleCallback hmacFn secret db e rh).status = 200 ∧
    (∃ db2, initiatePayment (handleCallback hmacFn secret db e rh).db uid
        (some e.merchant_order_id) prov ifr pid =
      Except.ok (db2,
        { payment_key := prov.keyToken
          iframe_url := iframeUrl ifr prov.keyToken
          booking_id := e.merchant_order_id
          amount := b.total_amount
          currency := b.currency },
        ["auth", "order", "payment_key"])) := by
  have hnotpaid : ¬(p.status = PaymentStatus.paid) := by
    rw [hpstat]
    decide
  rw [handleCallback_failure_eq hmacFn secret db e rh p hp hnotpaid hfail]
  have hf : ∀ q : Payment,
      ((if (q.id == p.id) = true then paymentRowFailed e q else q) : Payment).booking_id
        = q.booking_id := by
    intro q
    by_cases h : (q.id == p.id) = true <;> simp [h, paymentRowFailed]
  have hmem : p ∈ db.payments := List.mem_of_find?_eq_some hp
  have hpbid := List.find?_some hp
  refine ⟨?_, rfl, ?_, rfl, ?_⟩
  · dsimp only
    rw [payments_find_map db.payments e.merchant_order_id
      (fun q => if q.id == p.id then paymentRowFailed e q else q) hf, hp]
    simp [paymentRowFailed]
  · dsimp only
    exact ⟨_, List.mem_append_right _ (List.mem_singleton.mpr rfl), rfl⟩
  · dsimp only
    unfold initiatePayment
    dsimp only
    rw [hb]
    dsimp only
    rw [if_neg (by rw [hbpend]; simp)]
    rw [payments_find_map db.payments e.merchant_order_id
      (fun q => if q.id == p.id then paymentRowFailed e q else q) hf, hp]
    simp only [Option.map_some']
    rw [if_neg (by simp [paymentRowFailed])]
    rw [if_neg (by simp [paymentRowFailed])]
    unfold initiateFresh
    rw [if_neg hauth, if_neg horder, if_neg hkey]
    have hany : ((db.payments.map
        (fun q => if q.id == p.id then paymentRowFailed e q else q)).any
          (fun q => q.booking_id == e.merchant_order_id)) = true := by
      rw [List.any_eq_true]
      refine ⟨(fun q => if q.id == p.id then paymentRowFailed e q else q) p,
        List.mem_map.mpr ⟨p, hmem, rfl⟩, ?_⟩
      rw [hf p]
      exact hpbid
    apply Exists.intro
    dsimp only

/-- C9: the webhook handler applies the same state transition and returns
the same status and body for a mismatching signature as for the matching
one (soft-fail); the only difference is the logged discrepancy. -/
theorem c9_signature_mismatch_soft_fail (hmacFn : String → String → String)
    (secret : String) (db : DB) (e : WebhookEvent) (s : String)
    (hs : s ≠ hmacFn secret (hmacConcat e)) :
    (handleCallback hmacFn secret db e (some s)).db =
      (handleCallback hmacFn secret db e
        (some (hmacFn secret (hmacConcat e)))).db ∧
    (handleCallback hmacFn secret db e (some s)).status =
      (handleCallback hmacFn secret db e
        (some (hmacFn secret (hmacConcat e)))).status ∧
    (handleCallback hmacFn secret db e (some s)).body =
      (handleCallback hmacFn secret db e
        (some (hmacFn secret (hmacConcat e)))).body ∧
    (handleCallback hmacFn secret db e (some s)).logs = ["HMAC Mismatch"] := by
  have h1 := handleCallback_logs_eq hmacFn secret db e (some s)
  have h2 := handleCallback_logs_eq hmacFn secret db e
    (some (hmacFn secret (hmacConcat e)))
  refine ⟨by rw [h1, h2], by rw [h1, h2], by rw [h1, h2], ?_⟩
  rw [h1]
  dsimp only
  unfold hmacLogs
  dsimp only
  rw [if_pos hs]

theorem c9_signature_mismatch_soft_fail_witness :
    ("bad" : String) ≠ hmacTest "k9" (hmacConcat (mkEvent true 2)) ∧
    (handleCallback hmacTest "k9" dbInitOk (mkEvent true 2) (some "bad")).db =
      (handleCallback hmacTest "k9" dbInitOk (mkEvent true 2)
        (some (hmacTest "k9" (hmacConcat (mkEvent true 2))))).db ∧
    (handleCallback hmacTest "k9" dbInitOk (mkEvent true 2) (some "bad")).logs =
      ["HMAC Mismatch"] :=
  ⟨by decide,
    (c9_signature_mismatch_soft_fail hmacTest "k9" dbInitOk (mkEvent true 2)
      "bad" (by decide)).1,
    (c9_signature_mismatch_soft_fail hmacTest "k9" dbInitOk (mkEvent true 2)
      "bad" (by decide)).2.2.2⟩

theorem c7_failure_keeps_booking_pending_allows_retry_witness :
    dbInitOk.payments.find?
        (fun q => q.booking_id == (mkEvent false 2).merchant_order_id) = some payInit2 ∧
    (handleCallback hmacTest "k7" dbInitOk (mkEvent false 2) none).db.bookings =
      dbInitOk.bookings ∧
    (∃ db2, initiatePayment
        (handleCallback hmacTest "k7" dbInitOk (mkEvent false 2) none).db 7
        (some (mkEvent false 2).merchant_order_id) provStd "IF" 9 =
      Except.ok (db2,
        { payment_key := provStd.keyToken
          iframe_url := iframeUrl "IF" provStd.keyToken
          booking_id := (mkEvent false 2).merchant_order_id
          amount := bkPend2.total_amount
          currency := bkPend2.currency },
        ["auth", "order", "payment_key"])) :=
  ⟨by decide,
    (c7_failure_keeps_booking_pending_allows_retry hmacTest "k7" dbInitOk
        (mkEvent false 2) none payInit2 bkPend2 7 provStd "IF" 9 (by decide)
        (by decide) (by decide) (by decide) (by decide) (by decide) (by decide)
        (by decide)).2.1,
    (c7_failure_keeps_booking_pending_allows_retry hmacTest "k7" dbInitOk
        (mkEvent false 2) none payInit2 bkPend2 7 provStd "IF" 9 (by decide)
        (by decide) (by decide) (by decide) (by decide) (by decide) (by decide)
        (by decide)).2.2.2.2⟩

/-- C10 counterexample: a success callback on a payment in status failed
while a confirmed booking overlaps the same room: the payment transitions
to paid but the booking stays pending (the overlap trigger blocks the
update and the handler ignores the error), so the failed case is not
always processed to a confirmed booking as the claim states. -/
theorem c10_counterexample_conflict_blocks_confirmation :
    ((handleCallback hmacTest "sX" dbFailConflict (mkEvent true 2) none).db.payments.find?
        (fun q => q.booking_id == 2)).map Payment.status = some PaymentStatus.paid ∧
    ((handleCallback hmacTest "sX" dbFailConflict (mkEvent true 2) none).db.bookings.find?
        (fun x => x.id == 2)).map Booking.status = some BookingStatus.pending := by
  decide

/-- C10 amended: a success callback resolving to a payment in status
failed is processed exactly like the initiated case (only status paid
short-circuits): the payment transitions to paid, a booking_confirmed
notification is inserted and 200 is answered; the booking transitions to
confirmed provided no other confirmed booking on the same room overlaps
it, otherwise the storage trigger blocks the update and the booking
remains pending. -/
theorem c10_failed_payment_success_processed_like_initiated
    (hmacFn : String → String → String) (secret : String) (db : DB)
    (e : WebhookEvent) (rh : Option String) (p : Payment) (b : Booking)
    (hp : db.payments.find? (fun q => q.booking_id == e.merchant_order_id) = some p)
    (hpstat : p.status = PaymentStatus.failed)
    (hsucc : e.success = true)
    (hb : db.bookings.find? (fun x => x.id == e.merchant_order_id) = some b)
    (hchecks : bookingRowChecks b = true)
    (hnoconf : check_booking_overlap db.bookings
        { b with status := BookingStatus.confirmed } = true) :
    (handleCallback hmacFn secret db e rh).db.payments.find?
        (fun q => q.booking_id == e.merchant_order_id) = some (paymentRowPaid e p) ∧
    (handleCallback hmacFn secret db e rh).db.bookings.find?
        (fun x => x.id == e.merchant_order_id) =
      some { b with status := BookingStatus.confirmed } ∧
    (∃ n ∈ (handleCallback hmacFn secret db e rh).db.notifications,
      n.user_id = some b.user_id ∧ n.kind = "booking_confirmed") ∧
    (handleCallback hmacFn secret db e rh).status = 200 :=
  handleCallback_success_projections hmacFn secret db e rh p b hp
    (by rw [hpstat]; decide) hsucc hb hchecks hnoconf

theorem c10_failed_payment_success_processed_like_initiated_witness :
    dbFailOk.payments.find?
        (fun q => q.booking_id == (mkEvent true 2).merchant_order_id) = some payFail2 ∧
    ((handleCallback hmacTest "kX" dbFailOk (mkEvent true 2) none).db.bookings.find?
        (fun x => x.id == (mkEvent true 2).merchant_order_id)) =
      some { bkPend2 with status := BookingStatus.confirmed } :=
  ⟨by decide,
    (c10_failed_payment_success_processed_like_initiated hmacTest "kX" dbFailOk
        (mkEvent true 2) none payFail2 bkPend2 (by decide) (by decide) (by decide)
        (by decide) (by decide) (by decide)).2.1⟩

/-- Evaluation of the idempotent path of the paymob-initiate handler:
an initiated payment with a usable stored key is returned as is, the
store is unchanged and no provider call is made (lines 66 to 85). -/
theorem initiatePayment_reuse (db : DB) (uid bid : Nat) (b : Booking)
    (ep : Payment) (prov : PayMobProvider) (ifr : String) (pid : Nat)
    (hb : db.bookings.find? (fun x => x.id == bid && x.user_id == uid) = some b)
    (hpend : b.status = BookingStatus.pending)
    (hep : db.payments.find? (fun q => q.booking_id == bid) = some ep)
    (hst : ep.status = PaymentStatus.initiated)
    (hkey : ep.provider_payment_key ≠ "") :
    initiatePayment db uid (some bid) prov ifr pid =
      Except.ok (db,
        { payment_key := ep.provider_payment_key
          iframe_url := iframeUrl ifr ep.provider_payment_key
          booking_id := bid
          amount := b.total_amount
          currency := b.currency }, []) := by
  unfold initiatePayment
  simp only [hb]
  rw [if_neg (by rw [hpend]; simp)]
  simp only [hep]
  rw [if_neg (by rw [hst]; decide)]
  rw [if_pos ⟨hst, hkey⟩]

/-- After the upsert keyed on booking_id, looking the booking up in the
payments table finds a row carrying the upserted status and key. -/
theorem upsert_find (ps : List Payment) (bid : Nat) (newRow : Payment)
    (hnew : newRow.booking_id = bid) :
    ∃ q, (if ps.any (fun p => p.booking_id == bid) then
        ps.map (fun p => if p.booking_id == bid then
          { newRow with id := p.id, raw := p.raw } else p)
      else ps ++ [newRow]).find? (fun p => p.booking_id == bid) = some q ∧
      q.status = newRow.status ∧
      q.provider_payment_key = newRow.provider_payment_key := by
  by_cases hex : (ps.any (fun p => p.booking_id == bid)) = true
  · rw [if_pos hex]
    have hg : ∀ pq : Payment,
        ((if (pq.booking_id == bid) = true then
          { newRow with id := pq.id, raw := pq.raw } else pq) : Payment).booking_id
          = pq.booking_id := by
      intro pq
      by_cases h : (pq.booking_id == bid) = true
      · rw [if_pos h]
        have hpq : pq.booking_id = bid := by simpa using h
        show newRow.booking_id = pq.booking_id
        rw [hnew, hpq]
      · rw [if_neg h]
    cases hf0 : ps.find? (fun p => p.booking_id == bid) with
    | none =>
      rw [List.any_eq_true] at hex
      obtain ⟨y, hy, hpy⟩ := hex
      rw [List.find?_eq_none] at hf0
      exact absurd hpy (hf0 y hy)
    | some q0 =>
      have hq0 := List.find?_some hf0
      refine ⟨{ newRow with id := q0.id, raw := q0.raw }, ?_, rfl, rfl⟩
      rw [payments_find_map ps bid _ hg, hf0, Option.map_some']
      simp [hq0]
  · rw [if_neg hex]
    have hnone : ps.find? (fun p => p.booking_id == bid) = none := by
      rw [List.find?_eq_none]
      intro y hy
      rw [Bool.not_eq_true, List.any_eq_false] at hex
      exact hex y hy
    rw [find_append_of_none _ _ _ hnone]
    refine ⟨newRow, ?_, rfl, rfl⟩
    rw [List.find?_cons, show (newRow.booking_id == bid) = true by simp [hnew]]

/-- After a successful fresh-session creation, a second initiatePayment
call takes the idempotent path: it returns the stored key (the one just
created), leaves the store unchanged, and makes no provider call. -/
theorem initiatePayment_after_fresh (db : DB) (uid bid : Nat) (b : Booking)
    (prov : PayMobProvider) (ifr : String) (pid1 pid2 : Nat)
    (db1 : DB) (r1 : InitiateResult) (c1 : List String)
    (hb : db.bookings.find? (fun x => x.id == bid && x.user_id == uid) = some b)
    (hpend : b.status = BookingStatus.pending)
    (hok : initiateFresh db b bid prov ifr pid1 = Except.ok (db1, r1, c1)) :
    ∃ r2, initiatePayment db1 uid (some bid) prov ifr pid2 =
        Except.ok (db1, r2, []) ∧ r2.payment_key = r1.payment_key := by
  unfold initiateFresh at hok
  by_cases h1 : prov.authToken = ""
  · rw [if_pos h1] at hok; cases hok
  · rw [if_neg h1] at hok
    by_cases h2 : prov.orderId = 0
    · rw [if_pos h2] at hok; cases hok
    · rw [if_neg h2] at hok
      by_cases h3 : prov.keyToken = ""
      · rw [if_pos h3] at hok; cases hok
      · rw [if_neg h3] at hok
        dsimp only at hok
        have h4 := Except.ok.inj hok
        rw [Prod.mk.injEq, Prod.mk.injEq] at h4
        obtain ⟨hdb, hr, hc⟩ := h4
        subst hdb
        subst hr
        obtain ⟨q, hq, hqs, hqk⟩ := upsert_find db.payments bid
          { id := pid1, booking_id := bid, provider := "paymob",
            provider_order_id := toString prov.orderId,
            provider_payment_key := prov.keyToken, amount := b.total_amount,
            currency := b.currency, status := PaymentStatus.initiated,
            raw := none } rfl
        refine ⟨_, initiatePayment_reuse _ uid bid b q prov ifr pid2 hb hpend hq
          hqs (by rw [hqk]; exact h3), hqk⟩

/-- C4: initiatePayment is idempotent on the session token. Whenever a
payment record for the pending booking already exists in status initiated
with a stored (non-empty) provider session token, the existing session is
returned unchanged with no provider call made; and after any successful
call, calling again returns the identical session token, the unchanged
store, and makes no provider order or session call. -/
theorem c4_initiate_payment_idempotent (db : DB) (uid bid : Nat) (b : Booking)
    (prov : PayMobProvider) (ifr : String) (pid pid2 : Nat)
    (hb : db.bookings.find? (fun x => x.id == bid && x.user_id == uid) = some b)
    (hpend : b.status = BookingStatus.pending) :
    (∀ ep : Payment, db.payments.find? (fun q => q.booking_id == bid) = some ep →
      ep.status = PaymentStatus.initiated → ep.provider_payment_key ≠ "" →
      initiatePayment db uid (some bid) prov ifr pid =
        Except.ok (db,
          { payment_key := ep.provider_payment_key
            iframe_url := iframeUrl ifr ep.provider_payment_key
            booking_id := bid
            amount := b.total_amount
            currency := b.currency }, [])) ∧
    (∀ (db1 : DB) (r1 : InitiateResult) (c1 : List String),
      initiatePayment db uid (some bid) prov ifr pid = Except.ok (db1, r1, c1) →
      ∃ r2, initiatePayment db1 uid (some bid) prov ifr pid2 =
          Except.ok (db1, r2, []) ∧ r2.payment_key = r1.payment_key) := by
  refine ⟨fun ep hep hst hkey =>
    initiatePayment_reuse db uid bid b ep prov ifr pid hb hpend hep hst hkey, ?_⟩
  intro db1 r1 c1 hok
  unfold initiatePayment at hok
  simp only [hb] at hok
  rw [if_neg (by rw [hpend]; simp)] at hok
  cases hfind : db.payments.find? (fun q => q.booking_id == bid) with
  | some ep =>
    simp only [hfind] at hok
    by_cases hpaid : ep.status = PaymentStatus.paid
    · rw [if_pos hpaid] at hok
      cases hok
    · rw [if_neg hpaid] at hok
      by_cases hreuse : ep.status = PaymentStatus.initiated ∧
          ep.provider_payment_key ≠ ""
      · rw [if_pos hreuse] at hok
        have h4 := Except.ok.inj hok
        rw [Prod.mk.injEq, Prod.mk.injEq] at h4
        obtain ⟨hdb, hr, hc⟩ := h4
        subst hdb
        subst hr
        exact ⟨_, initiatePayment_reuse db uid bid b ep prov ifr pid2 hb hpend
          hfind hreuse.1 hreuse.2, rfl⟩
      · rw [if_neg hreuse] at hok
        exact initiatePayment_after_fresh db uid bid b prov ifr pid pid2
          db1 r1 c1 hb hpend hok
  | none =>
    simp only [hfind] at hok
    exact initiatePayment_after_fresh db uid bid b prov ifr pid pid2
      db1 r1 c1 hb hpend hok

theorem c4_initiate_payment_idempotent_witness :
    dbInitOk.bookings.find? (fun x => x.id == 2 && x.user_id == 7) = some bkPend2 ∧
    initiatePayment dbInitOk 7 (some 2) provStd "IF" 9 =
      Except.ok (dbInitOk,
        { payment_key := payInit2.provider_payment_key
          iframe_url := iframeUrl "IF" payInit2.provider_payment_key
          booking_id := 2
          amount := bkPend2.total_amount
          currency := bkPend2.currency }, []) :=
  ⟨by decide,
    (c4_initiate_payment_idempotent dbInitOk 7 2 bkPend2 provStd "IF" 9 11
        (by decide) (by decide)).1 payInit2 (by decide) (by decide) (by decide)⟩
